import Mathlib

/-
  Verification development for the digiboard classroom whiteboard relay.

  The server model below is a shallow embedding of the Socket.IO event
  handlers in src/server/index.js: the module-level registries
  (liveTeachers, currentLiveTeacher, teacherAudioStatus, audioDataMap),
  the per-socket closure variables (currentTeacherId, isStudent) and the
  Socket.IO room membership of each socket.  JS Maps are modelled as
  association lists, JS Sets as duplicate-free lists, and each handler is
  a pure function from a server state (plus the event arguments and the
  current clock value used for Date.now) to a new state together with the
  list of messages it emits.
-/

namespace Digiboard

/-- Lookup in an association list (models JS Map.get). -/
def alookup {κ ν : Type} [DecidableEq κ] (k : κ) : List (κ × ν) → Option ν
  | [] => none
  | (k1, v1) :: rest => if k1 = k then some v1 else alookup k rest

/-- Insert or replace in an association list (models JS Map.set). -/
def ainsert {κ ν : Type} [DecidableEq κ] (k : κ) (v : ν) : List (κ × ν) → List (κ × ν)
  | [] => [(k, v)]
  | (k1, v1) :: rest => if k1 = k then (k, v) :: rest else (k1, v1) :: ainsert k v rest

/-- Remove a key from an association list (models JS Map.delete). -/
def aerase {κ ν : Type} [DecidableEq κ] (k : κ) (m : List (κ × ν)) : List (κ × ν) :=
  m.filter (fun p => p.1 ≠ k)

/-- The keys of an association list. -/
def akeys {κ ν : Type} (m : List (κ × ν)) : List κ :=
  m.map Prod.fst

@[simp]
theorem alookup_nil {κ ν : Type} [DecidableEq κ] (k : κ) :
    alookup (ν := ν) k [] = none := rfl

@[simp]
theorem alookup_cons {κ ν : Type} [DecidableEq κ] (k k1 : κ) (v1 : ν) (rest : List (κ × ν)) :
    alookup k ((k1, v1) :: rest) = if k1 = k then some v1 else alookup k rest := rfl

theorem alookup_ainsert_self {κ ν : Type} [DecidableEq κ] (k : κ) (v : ν) (m : List (κ × ν)) :
    alookup k (ainsert k v m) = some v := by
  induction m with
  | nil => simp [ainsert]
  | cons hd tl ih =>
    obtain ⟨k1, v1⟩ := hd
    by_cases h : k1 = k <;> simp [ainsert, h, ih]

theorem alookup_ainsert_ne {κ ν : Type} [DecidableEq κ] (k j : κ) (v : ν) (m : List (κ × ν))
    (hne : k ≠ j) : alookup j (ainsert k v m) = alookup j m := by
  induction m with
  | nil => simp [ainsert, hne]
  | cons hd tl ih =>
    obtain ⟨k1, v1⟩ := hd
    by_cases h : k1 = k
    · subst h
      simp [ainsert, hne]
    · simp [ainsert, h, ih]

theorem alookup_aerase_self {κ ν : Type} [DecidableEq κ] (k : κ) (m : List (κ × ν)) :
    alookup k (aerase k m) = none := by
  induction m with
  | nil => simp [aerase]
  | cons hd tl ih =>
    obtain ⟨k1, v1⟩ := hd
    by_cases h : k1 = k
    · subst h
      simpa [aerase] using ih
    · simpa [aerase, h] using ih

theorem alookup_aerase_ne {κ ν : Type} [DecidableEq κ] (k j : κ) (m : List (κ × ν))
    (hne : k ≠ j) : alookup j (aerase k m) = alookup j m := by
  induction m with
  | nil => simp [aerase]
  | cons hd tl ih =>
    obtain ⟨k1, v1⟩ := hd
    by_cases h : k1 = k
    · subst h
      simpa [aerase, hne] using ih
    · by_cases h2 : k1 = j
      · subst h2
        simp [aerase, h]
      · simpa [aerase, h, h2] using ih

theorem akeys_eq_nil {κ ν : Type} (m : List (κ × ν)) (h : akeys m = []) : m = [] := by
  cases m with
  | nil => rfl
  | cons hd tl => simp [akeys] at h

theorem akeys_eq_singleton {κ ν : Type} (m : List (κ × ν)) (t : κ) (h : akeys m = [t]) :
    ∃ v, m = [(t, v)] := by
  cases m with
  | nil => simp [akeys] at h
  | cons hd tl =>
    obtain ⟨k1, v1⟩ := hd
    simp [akeys] at h
    obtain ⟨h1, h2⟩ := h
    exact ⟨v1, by simp [h1, h2]⟩

namespace Server

/-- A socket identifier (Socket.IO connection handle). -/
abbrev SockId := Nat

/-- A teacher identifier string. -/
abbrev TeacherId := String

/-- Per-socket state: the closure variables of the connection handler in
src/server/index.js (currentTeacherId, isStudent) together with the set of
Socket.IO teacher rooms this socket has joined (the room named
teacher-<id> is represented by the teacher id). -/
structure SockInfo where
  currentTeacherId : Option TeacherId
  isStudent : Bool
  rooms : List TeacherId
deriving Repr, DecidableEq

/-- The initial per-socket state on connection. -/
def SockInfo.init : SockInfo := ⟨none, false, []⟩

/-- The module-level server state of src/server/index.js plus the
per-socket states. -/
structure ServerState where
  liveTeachers : List (TeacherId × List SockId)
  currentLiveTeacher : Option TeacherId
  teacherAudioStatus : List (TeacherId × Bool)
  audioDataMap : List (TeacherId × String)
  socks : List (SockId × SockInfo)
deriving Repr, DecidableEq

/-- The server state at process start. -/
def initialServer : ServerState :=
  { liveTeachers := [], currentLiveTeacher := none, teacherAudioStatus := [],
    audioDataMap := [], socks := [] }

/-- Messages the server can emit to clients. -/
inductive OutEvent where
  | teacherOnline (t : TeacherId) (ts : Nat)
  | teacherOffline (t : TeacherId) (ts : Nat)
  | liveError (msg : String)
  | audioToggle (t : TeacherId) (enabled : Bool)
  | audioAvailable (t : TeacherId)
  | sessionEnded (t : TeacherId) (hasAudio : Bool)
  | whiteboardUpdate (t : TeacherId) (payload : String)
deriving Repr, DecidableEq

/-- A message together with its delivery target: directly to one socket,
to every connection (io.emit), or to every member of a teacher room other
than the sender (socket.broadcast.to(room).emit). -/
inductive Out where
  | emitTo (sid : SockId) (e : OutEvent)
  | emitAll (e : OutEvent)
  | emitRoomExcept (t : TeacherId) (sender : SockId) (e : OutEvent)
deriving Repr, DecidableEq

/-- The per-socket state of a socket, defaulting to the fresh-connection
state for sockets with no recorded entry. -/
def getSock (s : ServerState) (sid : SockId) : SockInfo :=
  (alookup sid s.socks).getD SockInfo.init

/-- Update the per-socket state of one socket. -/
def setSock (s : ServerState) (sid : SockId) (f : SockInfo → SockInfo) : ServerState :=
  { s with socks := ainsert sid (f (getSock s sid)) s.socks }

/-- socket.join(teacher-<t>): room membership is a set, so joining twice
is idempotent. -/
def joinRoom (s : ServerState) (sid : SockId) (t : TeacherId) : ServerState :=
  setSock s sid (fun i =>
    { i with rooms := if t ∈ i.rooms then i.rooms else t :: i.rooms })

/-- socket.leave(teacher-<t>): removes the room from the socket's
membership set. -/
def leaveRoom (s : ServerState) (sid : SockId) (t : TeacherId) : ServerState :=
  setSock s sid (fun i => { i with rooms := i.rooms.filter (fun r => r ≠ t) })

/-- Whether a message is delivered to socket d, given the room membership
recorded in the server state at emission time. -/
def deliveredTo (s : ServerState) (o : Out) (d : SockId) : Bool :=
  match o with
  | Out.emitTo sid _ => d = sid
  | Out.emitAll _ => true
  | Out.emitRoomExcept t sender _ => d ≠ sender ∧ t ∈ (getSock s d).rooms

/-- The body shared by both branches of the startLive handler that accept
the request (slot empty, or already held by the same teacher). -/
def startLiveProceed (s : ServerState) (sock : SockId) (t : TeacherId) (now : Nat) :
    ServerState × List Out :=
  let s1 := { s with liveTeachers := ainsert t [] s.liveTeachers }
  let s2 := setSock s1 sock (fun i => { i with currentTeacherId := some t })
  let s3 := { s2 with currentLiveTeacher := some t }
  let s4 := joinRoom s3 sock t
  (s4, [Out.emitAll (OutEvent.teacherOnline t now)])

/-- The startLive handler (src/server/index.js lines 85 to 105). -/
def startLive (s : ServerState) (sock : SockId) (t : TeacherId) (now : Nat) :
    ServerState × List Out :=
  match s.currentLiveTeacher with
  | some cur =>
    if cur ≠ t then
      (s, [Out.emitTo sock
        (OutEvent.liveError "Another teacher is currently live. Please try again later.")])
    else
      startLiveProceed s sock t now
  | none => startLiveProceed s sock t now

/-- The teardown body of the stopLive handler, executed when liveTeachers
has an entry for the teacher: evict every recorded student from the room,
delete the room entry, clear the slot if it holds this teacher, delete
the audio flag and broadcast teacherOffline. -/
def stopLiveTeardown (s : ServerState) (t : TeacherId) (now : Nat) :
    ServerState × List Out :=
  match alookup t s.liveTeachers with
  | some students =>
    let s1 := students.foldl (fun acc sid => leaveRoom acc sid t) s
    let s2 := { s1 with
      liveTeachers := aerase t s1.liveTeachers,
      currentLiveTeacher :=
        if s1.currentLiveTeacher = some t then none else s1.currentLiveTeacher,
      teacherAudioStatus := aerase t s1.teacherAudioStatus }
    (s2, [Out.emitAll (OutEvent.teacherOffline t now)])
  | none => (s, [])

/-- The stopLive handler (src/server/index.js lines 107 to 133). -/
def stopLive (s : ServerState) (sock : SockId) (t : TeacherId) (now : Nat) :
    ServerState × List Out :=
  let r := stopLiveTeardown s t now
  let s2 :=
    if (getSock r.1 sock).currentTeacherId = some t then
      setSock (leaveRoom r.1 sock t) sock (fun i => { i with currentTeacherId := none })
    else r.1
  (s2, r.2)

/-- The audioToggle handler (src/server/index.js lines 136 to 147): store
the flag and broadcast to the teacher room, without any live-slot check. -/
def audioToggle (s : ServerState) (sock : SockId) (t : TeacherId) (enabled : Bool) :
    ServerState × List Out :=
  ({ s with teacherAudioStatus := ainsert t enabled s.teacherAudioStatus },
   [Out.emitRoomExcept t sock (OutEvent.audioToggle t enabled)])

/-- The audioData handler (src/server/index.js lines 156 to 164): store
the payload and signal availability to the room. -/
def audioData (s : ServerState) (sock : SockId) (t : TeacherId) (payload : String) :
    ServerState × List Out :=
  ({ s with audioDataMap := ainsert t payload s.audioDataMap },
   [Out.emitRoomExcept t sock (OutEvent.audioAvailable t)])

/-- The sessionEnded handler (src/server/index.js lines 167 to 171). -/
def sessionEnded (s : ServerState) (sock : SockId) (t : TeacherId) (hasAudio : Bool) :
    ServerState × List Out :=
  (s, [Out.emitRoomExcept t sock (OutEvent.sessionEnded t hasAudio)])

/-- The whiteboardUpdate handler (src/server/index.js lines 209 to 215):
pure relay to the teacher room minus the sender, no state change. -/
def whiteboardUpdate (s : ServerState) (sock : SockId) (t : TeacherId) (payload : String) :
    ServerState × List Out :=
  (s, [Out.emitRoomExcept t sock (OutEvent.whiteboardUpdate t payload)])

/-- The joinTeacherRoom handler (src/server/index.js lines 173 to 196). -/
def joinTeacherRoom (s : ServerState) (sock : SockId) (t : TeacherId) (now : Nat) :
    ServerState × List Out :=
  match alookup t s.liveTeachers with
  | some students =>
    let s1 := joinRoom s sock t
    let newMembers := if sock ∈ students then students else students ++ [sock]
    let s2 := { s1 with liveTeachers := ainsert t newMembers s1.liveTeachers }
    let s3 := setSock s2 sock (fun i => { i with isStudent := true, currentTeacherId := some t })
    (s3, Out.emitTo sock (OutEvent.teacherOnline t now) ::
      (match alookup t s.teacherAudioStatus with
       | some en => [Out.emitTo sock (OutEvent.audioToggle t en)]
       | none => []))
  | none => (s, [])

/-- The leaveTeacherRoom handler (src/server/index.js lines 198 to 207). -/
def leaveTeacherRoom (s : ServerState) (sock : SockId) (t : TeacherId) :
    ServerState × List Out :=
  let s1 :=
    match alookup t s.liveTeachers with
    | some students =>
      { s with liveTeachers := ainsert t (students.filter (fun x => x ≠ sock)) s.liveTeachers }
    | none => s
  let s2 := leaveRoom s1 sock t
  let s3 :=
    if (getSock s2 sock).currentTeacherId = some t then
      setSock s2 sock (fun i => { i with currentTeacherId := none })
    else s2
  (s3, [])

/-- The checkTeacherStatus handler (src/server/index.js lines 64 to 83). -/
def checkTeacherStatus (s : ServerState) (sock : SockId) (now : Nat) :
    ServerState × List Out :=
  match s.currentLiveTeacher with
  | some t =>
    (s, Out.emitTo sock (OutEvent.teacherOnline t now) ::
      (match alookup t s.teacherAudioStatus with
       | some en => [Out.emitTo sock (OutEvent.audioToggle t en)]
       | none => []))
  | none => (s, [])

/-- The deprecated toggleAudio handler (src/server/index.js lines 150 to
153): echoes an audioToggle event back to the sending socket. -/
def toggleAudio (s : ServerState) (sock : SockId) (t : TeacherId) (enabled : Bool) :
    ServerState × List Out :=
  (s, [Out.emitTo sock (OutEvent.audioToggle t enabled)])

/-- The disconnect handler (src/server/index.js lines 217 to 248), plus
the transport-level destruction of the socket (its per-socket state and
room memberships disappear with the connection). -/
def disconnect (s : ServerState) (sock : SockId) (now : Nat) :
    ServerState × List Out :=
  let info := getSock s sock
  let r :=
    match info.currentTeacherId with
    | none => (s, ([] : List Out))
    | some ct =>
      if info.isStudent then
        let s1 :=
          match alookup ct s.liveTeachers with
          | some students =>
            { s with liveTeachers :=
                ainsert ct (students.filter (fun x => x ≠ sock)) s.liveTeachers }
          | none => s
        (s1, ([] : List Out))
      else
        stopLiveTeardown s ct now
  ({ r.1 with socks := aerase sock r.1.socks }, r.2)

/-- An inbound socket event, tagged with the socket it arrives on. -/
inductive SEvent where
  | startLive (sock : SockId) (t : TeacherId)
  | stopLive (sock : SockId) (t : TeacherId)
  | joinTeacherRoom (sock : SockId) (t : TeacherId)
  | leaveTeacherRoom (sock : SockId) (t : TeacherId)
  | audioToggle (sock : SockId) (t : TeacherId) (enabled : Bool)
  | toggleAudio (sock : SockId) (t : TeacherId) (enabled : Bool)
  | audioData (sock : SockId) (t : TeacherId) (payload : String)
  | sessionEnded (sock : SockId) (t : TeacherId) (hasAudio : Bool)
  | whiteboardUpdate (sock : SockId) (t : TeacherId) (payload : String)
  | checkTeacherStatus (sock : SockId)
  | disconnect (sock : SockId)
deriving Repr, DecidableEq

/-- Dispatch one inbound event to its handler; now is the value Date.now
would return while the handler runs. -/
def step (s : ServerState) (e : SEvent) (now : Nat) : ServerState × List Out :=
  match e with
  | SEvent.startLive sock t => startLive s sock t now
  | SEvent.stopLive sock t => stopLive s sock t now
  | SEvent.joinTeacherRoom sock t => joinTeacherRoom s sock t now
  | SEvent.leaveTeacherRoom sock t => leaveTeacherRoom s sock t
  | SEvent.audioToggle sock t enabled => audioToggle s sock t enabled
  | SEvent.toggleAudio sock t enabled => toggleAudio s sock t enabled
  | SEvent.audioData sock t payload => audioData s sock t payload
  | SEvent.sessionEnded sock t hasAudio => sessionEnded s sock t hasAudio
  | SEvent.whiteboardUpdate sock t payload => whiteboardUpdate s sock t payload
  | SEvent.checkTeacherStatus sock => checkTeacherStatus s sock now
  | SEvent.disconnect sock => disconnect s sock now

/-- Run a sequence of timestamped events from a state. -/
def run (s : ServerState) (evs : List (SEvent × Nat)) : ServerState :=
  evs.foldl (fun acc p => (step acc p.1 p.2).1) s

/-- The list of teacher ids a slot value accounts for. -/
def slotKeys : Option TeacherId → List TeacherId
  | none => []
  | some t => [t]

/-- The single-occupancy synchronisation invariant: the room table has an
entry exactly for the teacher in the live slot (so at most one room ever
exists, and it belongs to the slot holder). -/
def SlotSync (s : ServerState) : Prop :=
  akeys s.liveTeachers = slotKeys s.currentLiveTeacher

instance (s : ServerState) : Decidable (SlotSync s) := by
  unfold SlotSync
  infer_instance

@[simp]
theorem setSock_liveTeachers (s : ServerState) (sid : SockId) (f : SockInfo → SockInfo) :
    (setSock s sid f).liveTeachers = s.liveTeachers := rfl

@[simp]
theorem setSock_currentLiveTeacher (s : ServerState) (sid : SockId) (f : SockInfo → SockInfo) :
    (setSock s sid f).currentLiveTeacher = s.currentLiveTeacher := rfl

@[simp]
theorem setSock_teacherAudioStatus (s : ServerState) (sid : SockId) (f : SockInfo → SockInfo) :
    (setSock s sid f).teacherAudioStatus = s.teacherAudioStatus := rfl

@[simp]
theorem setSock_audioDataMap (s : ServerState) (sid : SockId) (f : SockInfo → SockInfo) :
    (setSock s sid f).audioDataMap = s.audioDataMap := rfl

@[simp]
theorem leaveRoom_liveTeachers (s : ServerState) (sid : SockId) (t : TeacherId) :
    (leaveRoom s sid t).liveTeachers = s.liveTeachers := rfl

@[simp]
theorem leaveRoom_currentLiveTeacher (s : ServerState) (sid : SockId) (t : TeacherId) :
    (leaveRoom s sid t).currentLiveTeacher = s.currentLiveTeacher := rfl

@[simp]
theorem leaveRoom_teacherAudioStatus (s : ServerState) (sid : SockId) (t : TeacherId) :
    (leaveRoom s sid t).teacherAudioStatus = s.teacherAudioStatus := rfl

@[simp]
theorem leaveRoom_audioDataMap (s : ServerState) (sid : SockId) (t : TeacherId) :
    (leaveRoom s sid t).audioDataMap = s.audioDataMap := rfl

@[simp]
theorem joinRoom_liveTeachers (s : ServerState) (sid : SockId) (t : TeacherId) :
    (joinRoom s sid t).liveTeachers = s.liveTeachers := rfl

@[simp]
theorem joinRoom_currentLiveTeacher (s : ServerState) (sid : SockId) (t : TeacherId) :
    (joinRoom s sid t).currentLiveTeacher = s.currentLiveTeacher := rfl

@[simp]
theorem joinRoom_teacherAudioStatus (s : ServerState) (sid : SockId) (t : TeacherId) :
    (joinRoom s sid t).teacherAudioStatus = s.teacherAudioStatus := rfl

@[simp]
theorem joinRoom_audioDataMap (s : ServerState) (sid : SockId) (t : TeacherId) :
    (joinRoom s sid t).audioDataMap = s.audioDataMap := rfl

@[simp]
theorem foldl_leaveRoom_liveTeachers (ms : List SockId) (s : ServerState) (t : TeacherId) :
    (ms.foldl (fun acc sid => leaveRoom acc sid t) s).liveTeachers = s.liveTeachers := by
  induction ms generalizing s with
  | nil => rfl
  | cons hd tl ih => simpa using ih (leaveRoom s hd t)

@[simp]
theorem foldl_leaveRoom_currentLiveTeacher (ms : List SockId) (s : ServerState) (t : TeacherId) :
    (ms.foldl (fun acc sid => leaveRoom acc sid t) s).currentLiveTeacher =
      s.currentLiveTeacher := by
  induction ms generalizing s with
  | nil => rfl
  | cons hd tl ih => simpa using ih (leaveRoom s hd t)

@[simp]
theorem foldl_leaveRoom_teacherAudioStatus (ms : List SockId) (s : ServerState) (t : TeacherId) :
    (ms.foldl (fun acc sid => leaveRoom acc sid t) s).teacherAudioStatus =
      s.teacherAudioStatus := by
  induction ms generalizing s with
  | nil => rfl
  | cons hd tl ih => simpa using ih (leaveRoom s hd t)

@[simp]
theorem foldl_leaveRoom_audioDataMap (ms : List SockId) (s : ServerState) (t : TeacherId) :
    (ms.foldl (fun acc sid => leaveRoom acc sid t) s).audioDataMap = s.audioDataMap := by
  induction ms generalizing s with
  | nil => rfl
  | cons hd tl ih => simpa using ih (leaveRoom s hd t)

theorem getSock_setSock_self (s : ServerState) (sid : SockId) (f : SockInfo → SockInfo) :
    getSock (setSock s sid f) sid = f (getSock s sid) := by
  simp [getSock, setSock, alookup_ainsert_self]

theorem getSock_setSock_ne (s : ServerState) (x sid : SockId) (f : SockInfo → SockInfo)
    (h : x ≠ sid) : getSock (setSock s x f) sid = getSock s sid := by
  simp [getSock, setSock, alookup_ainsert_ne x sid _ _ h]

theorem notMem_rooms_leaveRoom (s : ServerState) (x sid : SockId) (t : TeacherId)
    (h : t ∉ (getSock s sid).rooms) : t ∉ (getSock (leaveRoom s x t) sid).rooms := by
  by_cases hx : x = sid
  · subst hx
    unfold leaveRoom
    rw [getSock_setSock_self]
    simp [List.mem_filter]
  · unfold leaveRoom
    rw [getSock_setSock_ne _ _ _ _ hx]
    exact h

theorem notMem_rooms_leaveRoom_self (s : ServerState) (sid : SockId) (t : TeacherId) :
    t ∉ (getSock (leaveRoom s sid t) sid).rooms := by
  unfold leaveRoom
  rw [getSock_setSock_self]
  simp [List.mem_filter]

theorem foldl_leaveRoom_preserves_notMem (ms : List SockId) (s : ServerState) (t : TeacherId)
    (sid : SockId) (h : t ∉ (getSock s sid).rooms) :
    t ∉ (getSock (ms.foldl (fun acc x => leaveRoom acc x t) s) sid).rooms := by
  induction ms generalizing s with
  | nil => exact h
  | cons hd tl ih => exact ih (leaveRoom s hd t) (notMem_rooms_leaveRoom s hd sid t h)

theorem foldl_leaveRoom_evicts (ms : List SockId) (s : ServerState) (t : TeacherId)
    (sid : SockId) (h : sid ∈ ms) :
    t ∉ (getSock (ms.foldl (fun acc x => leaveRoom acc x t) s) sid).rooms := by
  induction ms generalizing s with
  | nil => cases h
  | cons hd tl ih =>
    rcases List.mem_cons.mp h with h1 | h1
    · subst h1
      exact foldl_leaveRoom_preserves_notMem tl (leaveRoom s sid t) t sid
        (notMem_rooms_leaveRoom_self s sid t)
    · exact ih (leaveRoom s hd t) h1

theorem slotSync_of_eq (s1 s2 : ServerState) (h : SlotSync s1)
    (hl : s2.liveTeachers = s1.liveTeachers)
    (hc : s2.currentLiveTeacher = s1.currentLiveTeacher) : SlotSync s2 := by
  unfold SlotSync at h ⊢
  rw [hl, hc]
  exact h

theorem slotSync_stopLiveTeardown (s : ServerState) (t : TeacherId) (now : Nat)
    (h : SlotSync s) : SlotSync (stopLiveTeardown s t now).1 := by
  unfold stopLiveTeardown
  cases hslot : s.currentLiveTeacher with
  | none =>
    have hm : s.liveTeachers = [] :=
      akeys_eq_nil _ (by simpa [SlotSync, hslot, slotKeys] using h)
    simp [hm, SlotSync, hslot, slotKeys, akeys]
  | some cur =>
    obtain ⟨v, hm⟩ :=
      akeys_eq_singleton _ cur (by simpa [SlotSync, hslot, slotKeys] using h)
    by_cases hct : cur = t
    · subst hct
      simp [hm, SlotSync, slotKeys, aerase, akeys, hslot]
    · simp [hm, hct, SlotSync, hslot, slotKeys, akeys]

theorem slotSync_step (s : ServerState) (e : SEvent) (now : Nat) (h : SlotSync s) :
    SlotSync (step s e now).1 := by
  cases e with
  | startLive sock t =>
    cases hslot : s.currentLiveTeacher with
    | none =>
      have hm : s.liveTeachers = [] :=
        akeys_eq_nil _ (by simpa [SlotSync, hslot, slotKeys] using h)
      simp [step, startLive, hslot, startLiveProceed, SlotSync, hm, ainsert, akeys, slotKeys]
    | some cur =>
      obtain ⟨v, hm⟩ :=
        akeys_eq_singleton _ cur (by simpa [SlotSync, hslot, slotKeys] using h)
      by_cases hct : cur = t
      · subst hct
        simp [step, startLive, hslot, startLiveProceed, SlotSync, hm, ainsert, akeys, slotKeys]
      · simpa [step, startLive, hslot, hct, SlotSync, slotKeys] using h
  | stopLive sock t =>
    have h1 := slotSync_stopLiveTeardown s t now h
    unfold step stopLive
    by_cases hc : (getSock (stopLiveTeardown s t now).1 sock).currentTeacherId = some t
    · simp only [hc, if_true]
      exact slotSync_of_eq _ _ h1 (by simp) (by simp)
    · simp only [hc, if_false]
      exact h1
  | joinTeacherRoom sock t =>
    show SlotSync (joinTeacherRoom s sock t now).1
    unfold joinTeacherRoom
    cases hlk : alookup t s.liveTeachers with
    | none => exact h
    | some students =>
      cases hslot : s.currentLiveTeacher with
      | none =>
        have hm : s.liveTeachers = [] :=
          akeys_eq_nil _ (by simpa [SlotSync, hslot, slotKeys] using h)
        rw [hm] at hlk
        simp at hlk
      | some cur =>
        obtain ⟨v, hm⟩ :=
          akeys_eq_singleton _ cur (by simpa [SlotSync, hslot, slotKeys] using h)
        rw [hm] at hlk
        by_cases hct : cur = t
        · subst hct
          simp [SlotSync, hm, ainsert, akeys, hslot, slotKeys]
        · simp [hct] at hlk
  | leaveTeacherRoom sock t =>
    show SlotSync (leaveTeacherRoom s sock t).1
    unfold leaveTeacherRoom
    have hbase : SlotSync
        (match alookup t s.liveTeachers with
         | some students =>
           { s with liveTeachers :=
              ainsert t (students.filter (fun x => x ≠ sock)) s.liveTeachers }
         | none => s) := by
      cases hlk : alookup t s.liveTeachers with
      | none => exact h
      | some students =>
        cases hslot : s.currentLiveTeacher with
        | none =>
          have hm : s.liveTeachers = [] :=
            akeys_eq_nil _ (by simpa [SlotSync, hslot, slotKeys] using h)
          rw [hm] at hlk
          simp at hlk
        | some cur =>
          obtain ⟨v, hm⟩ :=
            akeys_eq_singleton _ cur (by simpa [SlotSync, hslot, slotKeys] using h)
          rw [hm] at hlk
          by_cases hct : cur = t
          · subst hct
            simp [SlotSync, hm, ainsert, akeys, hslot, slotKeys]
          · simp [hct] at hlk
    dsimp only
    set s1 := (match alookup t s.liveTeachers with
         | some students =>
           { s with liveTeachers :=
              ainsert t (students.filter (fun x => x ≠ sock)) s.liveTeachers }
         | none => s) with hs1
    by_cases hc : (getSock (leaveRoom s1 sock t) sock).currentTeacherId = some t
    · simp only [hc, if_true]
      exact slotSync_of_eq _ _ hbase (by simp) (by simp)
    · simp only [hc, if_false]
      exact slotSync_of_eq _ _ hbase (by simp) (by simp)
  | audioToggle sock t enabled =>
    exact slotSync_of_eq _ _ h rfl rfl
  | toggleAudio sock t enabled => exact h
  | audioData sock t payload =>
    exact slotSync_of_eq _ _ h rfl rfl
  | sessionEnded sock t hasAudio => exact h
  | whiteboardUpdate sock t payload => exact h
  | checkTeacherStatus sock =>
    show SlotSync (checkTeacherStatus s sock now).1
    unfold checkTeacherStatus
    cases s.currentLiveTeacher <;> exact h
  | disconnect sock =>
    show SlotSync (disconnect s sock now).1
    unfold disconnect
    dsimp only
    cases hct : (getSock s sock).currentTeacherId with
    | none => exact slotSync_of_eq _ _ h rfl rfl
    | some ct =>
      by_cases hst : (getSock s sock).isStudent
      · simp only [hst, if_true]
        refine slotSync_of_eq _ _ ?_ rfl rfl
        cases hlk : alookup ct s.liveTeachers with
        | none => exact h
        | some students =>
          cases hslot : s.currentLiveTeacher with
          | none =>
            have hm : s.liveTeachers = [] :=
              akeys_eq_nil _ (by simpa [SlotSync, hslot, slotKeys] using h)
            rw [hm] at hlk
            simp at hlk
          | some cur =>
            obtain ⟨v, hm⟩ :=
              akeys_eq_singleton _ cur (by simpa [SlotSync, hslot, slotKeys] using h)
            rw [hm] at hlk
            by_cases hcc : cur = ct
            · subst hcc
              simp [SlotSync, hm, ainsert, akeys, hslot, slotKeys]
            · simp [hcc] at hlk
      · simp only [hst, if_false]
        exact slotSync_of_eq _ _ (slotSync_stopLiveTeardown s ct now h) rfl rfl

theorem slotSync_run (s : ServerState) (evs : List (SEvent × Nat)) (h : SlotSync s) :
    SlotSync (run s evs) := by
  induction evs generalizing s with
  | nil => exact h
  | cons hd tl ih => exact ih _ (slotSync_step s hd.1 hd.2 h)

theorem aerase_ainsert_self {κ ν : Type} [DecidableEq κ] (k : κ) (v : ν) (m : List (κ × ν)) :
    aerase k (ainsert k v m) = aerase k m := by
  induction m with
  | nil => simp [ainsert, aerase]
  | cons hd tl ih =>
    obtain ⟨k1, v1⟩ := hd
    by_cases h : k1 = k
    · subst h
      simp [ainsert, aerase]
    · simp only [aerase] at ih ⊢
      simp only [ne_eq, decide_not] at ih ⊢
      simp only [ainsert, h, if_false, List.filter_cons]
      simp [h, ih]

/-- Whether an event is a startLive request for the given teacher. -/
def isStartLiveFor (t : TeacherId) : SEvent → Bool
  | SEvent.startLive _ t2 => t2 = t
  | _ => false

theorem notMem_rooms_stopBranch (x : ServerState) (sock sid : SockId) (t : TeacherId)
    (h : t ∉ (getSock x sid).rooms) :
    t ∉ (getSock (setSock (leaveRoom x sock t) sock
      (fun i => { i with currentTeacherId := none })) sid).rooms := by
  by_cases hx : sock = sid
  · subst hx
    rw [getSock_setSock_self]
    simpa using notMem_rooms_leaveRoom_self x sock t
  · rw [getSock_setSock_ne _ _ _ _ hx]
    exact notMem_rooms_leaveRoom x sock sid t h

theorem ite_setSock_liveTeachers (c : Prop) [Decidable c] (x : ServerState) (sock : SockId)
    (f : SockInfo → SockInfo) :
    (if c then setSock x sock f else x).liveTeachers = x.liveTeachers := by
  by_cases hc : c <;> simp [hc]

theorem stopLiveTeardown_of_none (s : ServerState) (t : TeacherId) (now : Nat)
    (h : alookup t s.liveTeachers = none) : stopLiveTeardown s t now = (s, []) := by
  unfold stopLiveTeardown
  rw [h]

theorem stopLiveTeardown_of_some (s : ServerState) (t : TeacherId) (now : Nat)
    (ms : List SockId) (h : alookup t s.liveTeachers = some ms) :
    (stopLiveTeardown s t now).1.liveTeachers = aerase t s.liveTeachers ∧
    (stopLiveTeardown s t now).1.currentLiveTeacher =
      (if s.currentLiveTeacher = some t then none else s.currentLiveTeacher) ∧
    (stopLiveTeardown s t now).1.teacherAudioStatus = aerase t s.teacherAudioStatus ∧
    (stopLiveTeardown s t now).1.audioDataMap = s.audioDataMap ∧
    (stopLiveTeardown s t now).2 = [Out.emitAll (OutEvent.teacherOffline t now)] := by
  unfold stopLiveTeardown
  rw [h]
  refine ⟨by simp, by simp, by simp, by simp, rfl⟩

theorem stopLive_liveTeachers (s : ServerState) (sock : SockId) (t : TeacherId) (now : Nat) :
    (stopLive s sock t now).1.liveTeachers = (stopLiveTeardown s t now).1.liveTeachers := by
  unfold stopLive
  dsimp only
  by_cases hc : (getSock (stopLiveTeardown s t now).1 sock).currentTeacherId = some t <;>
    simp [hc]

theorem stopLive_currentLiveTeacher (s : ServerState) (sock : SockId) (t : TeacherId)
    (now : Nat) :
    (stopLive s sock t now).1.currentLiveTeacher =
      (stopLiveTeardown s t now).1.currentLiveTeacher := by
  unfold stopLive
  dsimp only
  by_cases hc : (getSock (stopLiveTeardown s t now).1 sock).currentTeacherId = some t <;>
    simp [hc]

theorem stopLive_teacherAudioStatus (s : ServerState) (sock : SockId) (t : TeacherId)
    (now : Nat) :
    (stopLive s sock t now).1.teacherAudioStatus =
      (stopLiveTeardown s t now).1.teacherAudioStatus := by
  unfold stopLive
  dsimp only
  by_cases hc : (getSock (stopLiveTeardown s t now).1 sock).currentTeacherId = some t <;>
    simp [hc]

theorem stopLive_audioDataMap (s : ServerState) (sock : SockId) (t : TeacherId) (now : Nat) :
    (stopLive s sock t now).1.audioDataMap = (stopLiveTeardown s t now).1.audioDataMap := by
  unfold stopLive
  dsimp only
  by_cases hc : (getSock (stopLiveTeardown s t now).1 sock).currentTeacherId = some t <;>
    simp [hc]

theorem stopLive_out (s : ServerState) (sock : SockId) (t : TeacherId) (now : Nat) :
    (stopLive s sock t now).2 = (stopLiveTeardown s t now).2 := rfl

theorem no_room_preserved (t : TeacherId) (s2 : ServerState) (e : SEvent) (now2 : Nat)
    (hn : alookup t s2.liveTeachers = none) (he : isStartLiveFor t e = false) :
    alookup t (step s2 e now2).1.liveTeachers = none := by
  cases e with
  | startLive sock2 t2 =>
    have hne : t2 ≠ t := by simpa [isStartLiveFor] using he
    show alookup t (startLive s2 sock2 t2 now2).1.liveTeachers = none
    unfold startLive startLiveProceed
    cases hs : s2.currentLiveTeacher with
    | none => simpa [alookup_ainsert_ne t2 t _ _ hne] using hn
    | some cur =>
      by_cases hc : cur = t2
      · simpa [hc, alookup_ainsert_ne t2 t _ _ hne] using hn
      · simpa [hc] using hn
  | stopLive sock2 t2 =>
    show alookup t (stopLive s2 sock2 t2 now2).1.liveTeachers = none
    rw [stopLive_liveTeachers]
    cases hlk : alookup t2 s2.liveTeachers with
    | none => rw [stopLiveTeardown_of_none s2 t2 now2 hlk]; exact hn
    | some students =>
      rw [(stopLiveTeardown_of_some s2 t2 now2 students hlk).1]
      by_cases hc2 : t2 = t
      · subst hc2
        exact alookup_aerase_self t2 s2.liveTeachers
      · rw [alookup_aerase_ne t2 t _ hc2]
        exact hn
  | joinTeacherRoom sock2 t2 =>
    show alookup t (joinTeacherRoom s2 sock2 t2 now2).1.liveTeachers = none
    unfold joinTeacherRoom
    cases hlk : alookup t2 s2.liveTeachers with
    | none => exact hn
    | some students =>
      by_cases hc2 : t2 = t
      · subst hc2
        rw [hn] at hlk
        cases hlk
      · simpa [alookup_ainsert_ne t2 t _ _ hc2] using hn
  | leaveTeacherRoom sock2 t2 =>
    show alookup t (leaveTeacherRoom s2 sock2 t2).1.liveTeachers = none
    unfold leaveTeacherRoom
    dsimp only
    rw [ite_setSock_liveTeachers, leaveRoom_liveTeachers]
    cases hlk : alookup t2 s2.liveTeachers with
    | none => exact hn
    | some students =>
      by_cases hc2 : t2 = t
      · subst hc2
        rw [hn] at hlk
        cases hlk
      · dsimp only
        rw [alookup_ainsert_ne t2 t _ _ hc2]
        exact hn
  | audioToggle sock2 t2 enabled => exact hn
  | toggleAudio sock2 t2 enabled => exact hn
  | audioData sock2 t2 payload => exact hn
  | sessionEnded sock2 t2 hasAudio => exact hn
  | whiteboardUpdate sock2 t2 payload => exact hn
  | checkTeacherStatus sock2 =>
    show alookup t (checkTeacherStatus s2 sock2 now2).1.liveTeachers = none
    unfold checkTeacherStatus
    cases s2.currentLiveTeacher <;> exact hn
  | disconnect sock2 =>
    show alookup t (disconnect s2 sock2 now2).1.liveTeachers = none
    unfold disconnect
    dsimp only
    cases hct : (getSock s2 sock2).currentTeacherId with
    | none => exact hn
    | some ct =>
      by_cases hst : (getSock s2 sock2).isStudent
      · simp only [hst, if_true]
        cases hlk : alookup ct s2.liveTeachers with
        | none => exact hn
        | some students =>
          by_cases hc2 : ct = t
          · subst hc2
            rw [hn] at hlk
            cases hlk
          · simpa [alookup_ainsert_ne ct t _ _ hc2] using hn
      · simp only [hst, if_false]
        show alookup t (stopLiveTeardown s2 ct now2).1.liveTeachers = none
        cases hlk : alookup ct s2.liveTeachers with
        | none => rw [stopLiveTeardown_of_none _ _ _ hlk]; exact hn
        | some students =>
          rw [(stopLiveTeardown_of_some _ _ _ _ hlk).1]
          by_cases hc2 : ct = t
          · subst hc2
            exact alookup_aerase_self ct _
          · rw [alookup_aerase_ne ct t _ hc2]
            exact hn

end Server

/-- An externally visible action of a student client: joining or leaving
a teacher room on the socket, performing the session save (artifact
upload plus the POST to the session record store), or clearing the
canvas. -/
inductive ClientEffect where
  | emitJoinTeacherRoom (t : String)
  | emitLeaveTeacherRoom (t : String)
  | save (t : String) (payload : String) (hasAudio : Bool)
  | clearCanvas
deriving Repr, DecidableEq

/-- Whether an effect list contains a session save. -/
def hasSave (effs : List ClientEffect) : Bool :=
  effs.any (fun e => match e with | ClientEffect.save _ _ _ => true | _ => false)

/-- The number of session saves in an effect list. -/
def countSaves (effs : List ClientEffect) : Nat :=
  (effs.filter (fun e => match e with | ClientEffect.save _ _ _ => true | _ => false)).length

namespace ClientA

/-
  Shallow embedding of the StudentWhiteboard variant in
  src/unnamed/part_010 (first file of the bundle): the variant with the
  sessionSaved flag, the lastStatusTimestamp ref and the
  isProcessingOffline ref.  React state setters are modelled as
  immediate field updates; the external upload and POST are modelled by
  a ClientEffect.save output whose success is an input flag ok.
-/

/-- The component state: React useState values and useRef cells of the
part_010 StudentWhiteboard (first variant). -/
structure ClientState where
  isTeacherLive : Bool
  currentTeacherId : Option String
  lastUpdate : String
  isSaving : Bool
  hasSessionAudio : Bool
  sessionSaved : Bool
  isRecording : Bool
  lastStatusTimestamp : Nat
  isProcessingOffline : Bool
deriving Repr, DecidableEq

/-- The state at mount; mountTime is the Date.now value used to
initialise lastStatusTimestamp. -/
def initialClient (mountTime : Nat) : ClientState :=
  { isTeacherLive := false, currentTeacherId := none, lastUpdate := "[]",
    isSaving := false, hasSessionAudio := false, sessionSaved := false,
    isRecording := false, lastStatusTimestamp := mountTime,
    isProcessingOffline := false }

/-- saveSession (src/unnamed/part_010 lines 68 to 152): bail out when
there is no teacher id, no whiteboard data, a save is in flight, the
session is already saved, or the whiteboard data is the empty path list;
otherwise perform the upload and POST (one save effect), and mark
sessionSaved on success (ok). -/
def saveSession (s : ClientState) (ok : Bool) : ClientState × List ClientEffect :=
  match s.currentTeacherId with
  | none => (s, [])
  | some t =>
    if s.lastUpdate = "" ∨ s.isSaving ∨ s.sessionSaved then (s, [])
    else if s.lastUpdate = "[]" then (s, [])
    else
      ({ s with sessionSaved := if ok then true else s.sessionSaved, isSaving := false },
       [ClientEffect.save t s.lastUpdate s.hasSessionAudio])

/-- handleWhiteboardUpdate (src/unnamed/part_010 lines 52 to 66): store
the payload and redraw the canvas. -/
def handleWhiteboardUpdate (s : ClientState) (payload : String) : ClientState :=
  { s with lastUpdate := payload }

/-- handleTeacherOnline (src/unnamed/part_010 lines 172 to 189): record
the event timestamp (falling back to Date.now), mark the teacher live,
join the room, and reset sessionSaved, all unconditionally. -/
def handleTeacherOnline (s : ClientState) (t : String) (ts : Option Nat) (now : Nat) :
    ClientState × List ClientEffect :=
  ({ s with lastStatusTimestamp := ts.getD now,
            isTeacherLive := true,
            currentTeacherId := some t,
            sessionSaved := false },
   [ClientEffect.emitJoinTeacherRoom t])

/-- handleTeacherOffline (src/unnamed/part_010 lines 199 to 251): skip
when an offline event is already being processed or the event names a
different teacher; tear down the UI without saving when there is no
drawing data or the session is already saved; otherwise save and tear
down. -/
def handleTeacherOffline (s : ClientState) (t : String) (ok : Bool) :
    ClientState × List ClientEffect :=
  if s.isProcessingOffline then (s, [])
  else if s.currentTeacherId ≠ some t then (s, [])
  else if s.lastUpdate = "[]" ∨ s.sessionSaved ∨ s.currentTeacherId = none then
    ({ s with isTeacherLive := false, currentTeacherId := none, isRecording := false },
     [ClientEffect.clearCanvas])
  else
    let r := saveSession { s with isProcessingOffline := true } ok
    ({ r.1 with isTeacherLive := false, currentTeacherId := none, isRecording := false,
                isProcessingOffline := false },
     r.2 ++ [ClientEffect.clearCanvas])

/-- handleAudioToggle (src/unnamed/part_010 lines 253 to 260). -/
def handleAudioToggle (s : ClientState) (t : String) (enabled : Bool) : ClientState :=
  if s.currentTeacherId = some t then { s with isRecording := enabled } else s

/-- handleAudioAvailable (src/unnamed/part_010 lines 262 to 267). -/
def handleAudioAvailable (s : ClientState) (t : String) : ClientState :=
  if s.currentTeacherId = some t then { s with hasSessionAudio := true } else s

/-- An event delivered to the part_010 student client.  online carries
the optional server timestamp and the local clock value; offline and its
save path carry the success flag of the external persistence call. -/
inductive CEvent where
  | online (t : String) (ts : Option Nat) (now : Nat)
  | offline (t : String) (ok : Bool)
  | whiteboard (payload : String)
  | audioToggle (t : String) (enabled : Bool)
  | audioAvailable (t : String)
deriving Repr, DecidableEq

/-- Dispatch one event to its handler. -/
def cstep (s : ClientState) (e : CEvent) : ClientState × List ClientEffect :=
  match e with
  | CEvent.online t ts now => handleTeacherOnline s t ts now
  | CEvent.offline t ok => handleTeacherOffline s t ok
  | CEvent.whiteboard payload => (handleWhiteboardUpdate s payload, [])
  | CEvent.audioToggle t enabled => (handleAudioToggle s t enabled, [])
  | CEvent.audioAvailable t => (handleAudioAvailable s t, [])

/-- Run a sequence of events, collecting all effects in order. -/
def crun (s : ClientState) (evs : List CEvent) : ClientState × List ClientEffect :=
  match evs with
  | [] => (s, [])
  | e :: rest =>
    let r := cstep s e
    let r2 := crun r.1 rest
    (r2.1, r.2 ++ r2.2)

end ClientA

namespace ClientB

/-
  Shallow embedding of the debounced StudentWhiteboard variant in
  src/unnamed/part_010 (second file of the bundle): the variant with the
  lastActivityRef / isSavingSessionRef pair and the grace-window check in
  handleTeacherOffline (lines 678 to 712): wait 1000 ms, then treat the
  teacher as actually offline only when more than 2000 ms have elapsed
  since the last recorded activity.
-/

/-- The component state of the debounced part_010 variant.  lastActivity
is the lastActivityRef value, a Date.now timestamp updated by
handleWhiteboardUpdate and handleTeacherOnline. -/
structure ClientState where
  isTeacherLive : Bool
  currentTeacherId : Option String
  lastUpdate : String
  isSaving : Bool
  isSavingSession : Bool
  lastActivity : Nat
deriving Repr, DecidableEq

/-- The state at mount (lastUpdateRef starts as the empty JSON object
string). -/
def initialClient (mountTime : Nat) : ClientState :=
  { isTeacherLive := false, currentTeacherId := none, lastUpdate := "\x7b\x7d",
    isSaving := false, isSavingSession := false, lastActivity := mountTime }

/-- handleWhiteboardUpdate (second part_010 variant, lines 493 to 570):
record the activity time and store the payload. -/
def handleWhiteboardUpdate (s : ClientState) (payload : String) (now : Nat) : ClientState :=
  { s with lastActivity := now, lastUpdate := payload }

/-- handleTeacherOnline (second part_010 variant, lines 669 to 676). -/
def handleTeacherOnline (s : ClientState) (t : String) (now : Nat) :
    ClientState × List ClientEffect :=
  ({ s with isTeacherLive := true, currentTeacherId := some t, lastActivity := now },
   [ClientEffect.emitJoinTeacherRoom t])

/-- saveSession (second part_010 variant, lines 572 to 629): bail out on
a re-entrant call, a missing teacher id, empty data, or a save in
flight; otherwise perform the upload and POST. -/
def saveSession (s : ClientState) : ClientState × List ClientEffect :=
  if s.isSavingSession then (s, [])
  else
    match s.currentTeacherId with
    | none => (s, [])
    | some t =>
      if s.lastUpdate = "" ∨ s.isSaving then (s, [])
      else
        ({ s with isSaving := false, isSavingSession := false },
         [ClientEffect.save t s.lastUpdate false])

/-- The actuallyOffline test of handleTeacherOffline (second part_010
variant, lines 683 to 689): the check runs 1000 ms after the offline
event arrives and passes when more than 2000 ms have elapsed since the
last recorded activity. -/
def actuallyOffline (lastActivity checkTime : Nat) : Bool :=
  checkTime - lastActivity > 2000

/-- handleTeacherOffline (second part_010 variant, lines 678 to 712):
arrive is the Date.now value when the offline event is received, and
s.lastActivity must be the lastActivityRef value at the moment the
deferred check runs (arrive + 1000).  When the check passes, save and
tear down; otherwise do nothing. -/
def handleTeacherOffline (s : ClientState) (arrive : Nat) :
    ClientState × List ClientEffect :=
  if actuallyOffline s.lastActivity (arrive + 1000) then
    let r := saveSession s
    ({ r.1 with isTeacherLive := false, currentTeacherId := none },
     r.2 ++ [ClientEffect.clearCanvas])
  else (s, [])

/-- Modelled from the spec: the debounced-offline rule as §4.5 of the
spec words it, for comparison with the code.  It commits to the save
exactly when no activity was observed inside the grace window, i.e. when
the last activity timestamp does not fall strictly after the offline
arrival (and within the window that the deferred check closes). -/
def specOfflineCommits (lastActivity arrive : Nat) : Bool :=
  ¬ (arrive < lastActivity ∧ lastActivity ≤ arrive + 1000)

end ClientB

namespace ClientC

/-
  Shallow embedding of the StudentWhiteboard variant in
  src/src/components/Whiteboard/StudentWhiteboard.tsx (first file of the
  bundle): the image-capture variant whose saveSession guard (lines 271
  to 276) rejects the empty path list, and whose handleTeacherOffline
  (lines 374 to 382) saves with no grace window.
-/

/-- The component state of the StudentWhiteboard.tsx variant. -/
structure ClientState where
  isTeacherLive : Bool
  currentTeacherId : Option String
  lastUpdate : String
  isSaving : Bool
  saveError : Option String
deriving Repr, DecidableEq

/-- The state at mount. -/
def initialClient : ClientState :=
  { isTeacherLive := false, currentTeacherId := none, lastUpdate := "[]",
    isSaving := false, saveError := none }

/-- handleWhiteboardUpdate (StudentWhiteboard.tsx lines 172 to 181). -/
def handleWhiteboardUpdate (s : ClientState) (payload : String) : ClientState :=
  if payload = "" then s else { s with lastUpdate := payload }

/-- saveSession (StudentWhiteboard.tsx lines 271 to 339): return without
uploading or POSTing when there is no teacher id, no data, a save in
flight, or the data is the empty path list; otherwise perform the save,
recording an error message on failure. -/
def saveSession (s : ClientState) (ok : Bool) : ClientState × List ClientEffect :=
  match s.currentTeacherId with
  | none => (s, [])
  | some t =>
    if s.lastUpdate = "" ∨ s.isSaving ∨ s.lastUpdate = "[]" then (s, [])
    else
      ({ s with isSaving := false,
                saveError := if ok then none else some "Failed to save session" },
       [ClientEffect.save t s.lastUpdate false])

/-- handleTeacherOnline (StudentWhiteboard.tsx lines 366 to 372). -/
def handleTeacherOnline (s : ClientState) (t : String) : ClientState × List ClientEffect :=
  ({ s with isTeacherLive := true, currentTeacherId := some t },
   [ClientEffect.emitJoinTeacherRoom t])

/-- handleTeacherOffline (StudentWhiteboard.tsx lines 374 to 382): save
immediately, then tear down and clear the stored whiteboard data. -/
def handleTeacherOffline (s : ClientState) (ok : Bool) : ClientState × List ClientEffect :=
  let r := saveSession s ok
  ({ r.1 with isTeacherLive := false, currentTeacherId := none, lastUpdate := "[]" },
   r.2 ++ [ClientEffect.clearCanvas])

end ClientC

namespace Server

theorem stopLive_evicts (s : ServerState) (sock : SockId) (t : TeacherId) (now : Nat)
    (ms : List SockId) (hlk : alookup t s.liveTeachers = some ms) :
    ∀ sid ∈ ms, t ∉ (getSock (stopLive s sock t now).1 sid).rooms := by
  intro sid hsid
  have hbase : t ∉ (getSock (stopLiveTeardown s t now).1 sid).rooms := by
    unfold stopLiveTeardown
    rw [hlk]
    exact foldl_leaveRoom_evicts ms s t sid hsid
  unfold stopLive
  dsimp only
  by_cases hc : (getSock (stopLiveTeardown s t now).1 sock).currentTeacherId = some t
  · simp only [hc, if_true]
    exact notMem_rooms_stopBranch _ sock sid t hbase
  · simp only [hc, if_false]
    exact hbase

theorem joinTeacherRoom_of_none (s : ServerState) (sock : SockId) (t : TeacherId) (now : Nat)
    (h : alookup t s.liveTeachers = none) : joinTeacherRoom s sock t now = (s, []) := by
  unfold joinTeacherRoom
  rw [h]

theorem disconnect_of_teacher (s : ServerState) (sock : SockId) (t : TeacherId) (now : Nat)
    (hct : (getSock s sock).currentTeacherId = some t)
    (hst : (getSock s sock).isStudent = false) :
    disconnect s sock now =
      ({ (stopLiveTeardown s t now).1 with
          socks := aerase sock (stopLiveTeardown s t now).1.socks },
       (stopLiveTeardown s t now).2) := by
  unfold disconnect
  dsimp only
  rw [hct]
  simp [hst]

theorem disconnect_of_student_some (s : ServerState) (sock : SockId) (ct : TeacherId)
    (now : Nat) (students : List SockId)
    (hct : (getSock s sock).currentTeacherId = some ct)
    (hst : (getSock s sock).isStudent = true)
    (hlk : alookup ct s.liveTeachers = some students) :
    disconnect s sock now =
      ({ s with
          liveTeachers := ainsert ct (students.filter (fun x => x ≠ sock)) s.liveTeachers,
          socks := aerase sock s.socks }, []) := by
  unfold disconnect
  dsimp only
  rw [hct]
  simp only [hst, if_true]
  rw [hlk]

theorem disconnect_of_student_none (s : ServerState) (sock : SockId) (ct : TeacherId)
    (now : Nat)
    (hct : (getSock s sock).currentTeacherId = some ct)
    (hst : (getSock s sock).isStudent = true)
    (hlk : alookup ct s.liveTeachers = none) :
    disconnect s sock now = ({ s with socks := aerase sock s.socks }, []) := by
  unfold disconnect
  dsimp only
  rw [hct]
  simp only [hst, if_true]
  rw [hlk]

theorem disconnect_of_free (s : ServerState) (sock : SockId) (now : Nat)
    (hct : (getSock s sock).currentTeacherId = none) :
    disconnect s sock now = ({ s with socks := aerase sock s.socks }, []) := by
  unfold disconnect
  dsimp only
  rw [hct]

end Server

/-
  ===================  CLAIM THEOREMS  ===================
-/

/-- C1: single-live-teacher invariant.  First conjunct: for every event
sequence processed from the initial server state, the room table has an
entry exactly for the teacher in the live slot (slotKeys of an Option is
nil or a singleton), so at most one teacherId ever occupies the live
slot and at most one room exists at any time.  Second conjunct: a
startLive for teacher t while the slot holds a different teacher tOther
emits a liveError to the requesting socket only and leaves the whole
server state (slot, room table, audio flags) unchanged. -/
theorem single_live_teacher :
    (∀ evs : List (Server.SEvent × Nat),
      Server.SlotSync (Server.run Server.initialServer evs)) ∧
    (∀ (s : Server.ServerState) (sock : Server.SockId) (t tOther : Server.TeacherId)
      (now : Nat),
      s.currentLiveTeacher = some tOther → tOther ≠ t →
      Server.startLive s sock t now =
        (s, [Server.Out.emitTo sock (Server.OutEvent.liveError
          "Another teacher is currently live. Please try again later.")])) := by
  constructor
  · intro evs
    exact Server.slotSync_run _ _ rfl
  · intro s sock t tOther now hslot hne
    simp [Server.startLive, hslot, hne]

/-- Witness for C1 at concrete inputs: the invariant after a concrete
event sequence, and a concrete rejected second start. -/
theorem single_live_teacher_witness :
    Server.SlotSync (Server.run Server.initialServer
      [(Server.SEvent.startLive 0 "t1", 1), (Server.SEvent.joinTeacherRoom 1 "t1", 2)]) ∧
    Server.startLive
      { liveTeachers := [("t1", [])], currentLiveTeacher := some "t1",
        teacherAudioStatus := [], audioDataMap := [], socks := [] } 2 "t2" 9 =
      ({ liveTeachers := [("t1", [])], currentLiveTeacher := some "t1",
         teacherAudioStatus := [], audioDataMap := [], socks := [] },
       [Server.Out.emitTo 2 (Server.OutEvent.liveError
         "Another teacher is currently live. Please try again later.")]) :=
  ⟨single_live_teacher.1 _,
   single_live_teacher.2 _ 2 "t2" "t1" 9 rfl (by decide)⟩

/-- C3 counterexample: startLive for a teacher that already holds the
slot does NOT leave the room membership unchanged: after startLive(t1),
joinTeacherRoom(t1) by socket 1 the room holds [1], but a second
startLive(t1) resets the membership set to the empty list (the handler
runs liveTeachers.set(teacherId, new Set()) unconditionally). -/
theorem idempotent_restart_counterexample :
    alookup "t1" (Server.run Server.initialServer
      [(Server.SEvent.startLive 0 "t1", 1),
       (Server.SEvent.joinTeacherRoom 1 "t1", 2)]).liveTeachers = some [1] ∧
    alookup "t1" (Server.run Server.initialServer
      [(Server.SEvent.startLive 0 "t1", 1),
       (Server.SEvent.joinTeacherRoom 1 "t1", 2),
       (Server.SEvent.startLive 0 "t1", 3)]).liveTeachers = some [] := by
  constructor <;> decide

/-- C3 amended: a second startLive(t) while the slot already holds t is
accepted (no liveError) and emits only a fresh teacherOnline broadcast
(in particular no teacherOffline teardown), leaves the AudioFlag table
and the slot unchanged, but RESETS the room membership set for t to
empty rather than leaving it unchanged. -/
theorem idempotent_restart_amended :
    ∀ (s : Server.ServerState) (sock : Server.SockId) (t : Server.TeacherId) (now : Nat),
      s.currentLiveTeacher = some t →
      (Server.startLive s sock t now).2 =
        [Server.Out.emitAll (Server.OutEvent.teacherOnline t now)] ∧
      alookup t (Server.startLive s sock t now).1.liveTeachers = some [] ∧
      (Server.startLive s sock t now).1.teacherAudioStatus = s.teacherAudioStatus ∧
      (Server.startLive s sock t now).1.audioDataMap = s.audioDataMap ∧
      (Server.startLive s sock t now).1.currentLiveTeacher = some t := by
  intro s sock t now hslot
  refine ⟨?_, ?_, ?_, ?_, ?_⟩ <;>
    simp [Server.startLive, hslot, Server.startLiveProceed, alookup_ainsert_self]

/-- Witness for C3 amended at a concrete restart. -/
theorem idempotent_restart_amended_witness :
    (Server.startLive
      { liveTeachers := [("t1", [1])], currentLiveTeacher := some "t1",
        teacherAudioStatus := [("t1", true)], audioDataMap := [], socks := [] } 0 "t1" 7).2 =
      [Server.Out.emitAll (Server.OutEvent.teacherOnline "t1" 7)] ∧
    alookup "t1" (Server.startLive
      { liveTeachers := [("t1", [1])], currentLiveTeacher := some "t1",
        teacherAudioStatus := [("t1", true)], audioDataMap := [], socks := [] }
      0 "t1" 7).1.liveTeachers = some [] ∧
    (Server.startLive
      { liveTeachers := [("t1", [1])], currentLiveTeacher := some "t1",
        teacherAudioStatus := [("t1", true)], audioDataMap := [], socks := [] }
      0 "t1" 7).1.teacherAudioStatus = [("t1", true)] ∧
    (Server.startLive
      { liveTeachers := [("t1", [1])], currentLiveTeacher := some "t1",
        teacherAudioStatus := [("t1", true)], audioDataMap := [], socks := [] }
      0 "t1" 7).1.audioDataMap = [] ∧
    (Server.startLive
      { liveTeachers := [("t1", [1])], currentLiveTeacher := some "t1",
        teacherAudioStatus := [("t1", true)], audioDataMap := [], socks := [] }
      0 "t1" 7).1.currentLiveTeacher = some "t1" :=
  idempotent_restart_amended
    { liveTeachers := [("t1", [1])], currentLiveTeacher := some "t1",
      teacherAudioStatus := [("t1", true)], audioDataMap := [], socks := [] } 0 "t1" 7 rfl

/-- C4: stop teardown completeness.  While the slot holds t (and the
room table has the matching entry with member set ms), stopLive(t)
deletes the room entry and the audio flag for t, clears the slot,
broadcasts teacherOffline with the timestamp to all connections, and
evicts every recorded member from the Socket.IO room; afterwards any
joinTeacherRoom(t, c) on any state with no room entry for t is a no-op,
and every event other than a startLive for t preserves the absence of
the room entry. -/
theorem stop_teardown_completeness :
    ∀ (s : Server.ServerState) (sock : Server.SockId) (t : Server.TeacherId) (now : Nat)
      (ms : List Server.SockId),
      alookup t s.liveTeachers = some ms →
      s.currentLiveTeacher = some t →
      (alookup t (Server.stopLive s sock t now).1.liveTeachers = none ∧
       alookup t (Server.stopLive s sock t now).1.teacherAudioStatus = none ∧
       (Server.stopLive s sock t now).1.currentLiveTeacher = none ∧
       (Server.stopLive s sock t now).2 =
         [Server.Out.emitAll (Server.OutEvent.teacherOffline t now)] ∧
       (∀ sid ∈ ms, t ∉ (Server.getSock (Server.stopLive s sock t now).1 sid).rooms) ∧
       (∀ (s2 : Server.ServerState) (c : Server.SockId) (now2 : Nat),
         alookup t s2.liveTeachers = none →
         Server.joinTeacherRoom s2 c t now2 = (s2, [])) ∧
       (∀ (s2 : Server.ServerState) (e : Server.SEvent) (now2 : Nat),
         alookup t s2.liveTeachers = none →
         Server.isStartLiveFor t e = false →
         alookup t (Server.step s2 e now2).1.liveTeachers = none)) := by
  intro s sock t now ms hlk hslot
  obtain ⟨hl, hc, ha, hd, ho⟩ := Server.stopLiveTeardown_of_some s t now ms hlk
  refine ⟨?_, ?_, ?_, ?_, ?_, ?_, ?_⟩
  · rw [Server.stopLive_liveTeachers, hl]
    exact alookup_aerase_self t _
  · rw [Server.stopLive_teacherAudioStatus, ha]
    exact alookup_aerase_self t _
  · rw [Server.stopLive_currentLiveTeacher, hc, if_pos hslot]
  · rw [Server.stopLive_out, ho]
  · exact Server.stopLive_evicts s sock t now ms hlk
  · intro s2 c now2 hn
    exact Server.joinTeacherRoom_of_none s2 c t now2 hn
  · intro s2 e now2 hn he
    exact Server.no_room_preserved t s2 e now2 hn he

/-- Witness for C4 at a concrete session with one joined student. -/
theorem stop_teardown_completeness_witness :
    alookup "t1" (Server.stopLive (Server.run Server.initialServer
      [(Server.SEvent.startLive 0 "t1", 1), (Server.SEvent.joinTeacherRoom 1 "t1", 2)])
      0 "t1" 3).1.liveTeachers = none ∧
    (Server.stopLive (Server.run Server.initialServer
      [(Server.SEvent.startLive 0 "t1", 1), (Server.SEvent.joinTeacherRoom 1 "t1", 2)])
      0 "t1" 3).1.currentLiveTeacher = none := by
  have h := stop_teardown_completeness (Server.run Server.initialServer
    [(Server.SEvent.startLive 0 "t1", 1), (Server.SEvent.joinTeacherRoom 1 "t1", 2)])
    0 "t1" 3 [1] (by decide) (by decide)
  exact ⟨h.1, h.2.2.1⟩

/-- C5 counterexample: a disconnect of the connection that currently
holds the live slot is NOT always equivalent to stopLive.  The isStudent
flag of a socket is sticky: socket 1 joins the room of live teacher t1
(becoming flagged as student), that session stops, and then socket 1
successfully starts its own live session as teacher t2.  Socket 1 now
holds the slot for t2 but is still flagged isStudent, so its disconnect
takes the student branch: the slot stays occupied by t2 and no
teacherOffline is broadcast, whereas an explicit stopLive(t2) clears the
slot and broadcasts teacherOffline. -/
theorem disconnect_equiv_stop_counterexample :
    (Server.getSock (Server.run Server.initialServer
      [(Server.SEvent.startLive 0 "t1", 1), (Server.SEvent.joinTeacherRoom 1 "t1", 2),
       (Server.SEvent.stopLive 0 "t1", 3), (Server.SEvent.startLive 1 "t2", 4)])
      1).currentTeacherId = some "t2" ∧
    (Server.run Server.initialServer
      [(Server.SEvent.startLive 0 "t1", 1), (Server.SEvent.joinTeacherRoom 1 "t1", 2),
       (Server.SEvent.stopLive 0 "t1", 3), (Server.SEvent.startLive 1 "t2", 4)]
     ).currentLiveTeacher = some "t2" ∧
    (Server.disconnect (Server.run Server.initialServer
      [(Server.SEvent.startLive 0 "t1", 1), (Server.SEvent.joinTeacherRoom 1 "t1", 2),
       (Server.SEvent.stopLive 0 "t1", 3), (Server.SEvent.startLive 1 "t2", 4)])
      1 5).1.currentLiveTeacher = some "t2" ∧
    (Server.disconnect (Server.run Server.initialServer
      [(Server.SEvent.startLive 0 "t1", 1), (Server.SEvent.joinTeacherRoom 1 "t1", 2),
       (Server.SEvent.stopLive 0 "t1", 3), (Server.SEvent.startLive 1 "t2", 4)])
      1 5).2 = [] ∧
    (Server.stopLive (Server.run Server.initialServer
      [(Server.SEvent.startLive 0 "t1", 1), (Server.SEvent.joinTeacherRoom 1 "t1", 2),
       (Server.SEvent.stopLive 0 "t1", 3), (Server.SEvent.startLive 1 "t2", 4)])
      1 "t2" 5).1.currentLiveTeacher = none ∧
    (Server.stopLive (Server.run Server.initialServer
      [(Server.SEvent.startLive 0 "t1", 1), (Server.SEvent.joinTeacherRoom 1 "t1", 2),
       (Server.SEvent.stopLive 0 "t1", 3), (Server.SEvent.startLive 1 "t2", 4)])
      1 "t2" 5).2 = [Server.Out.emitAll (Server.OutEvent.teacherOffline "t2" 5)] := by
  refine ⟨?_, ?_, ?_, ?_, ?_, ?_⟩ <;> decide

/-- C5 amended: the equivalence holds for connections not flagged as
student.  First conjunct: if the disconnecting socket has
currentTeacherId = t and isStudent = false, the disconnect produces the
same room table, slot, audio flags, audio data and the same emitted
messages as an explicit stopLive(t) from that socket, and the same
per-socket states up to erasing the destroyed socket.  Second conjunct:
a student-flagged socket's disconnect emits nothing, leaves the slot and
audio flags unchanged and only removes the socket from the member set of
its room.  Third conjunct: a disconnect of a socket associated with no
teacher changes nothing except dropping the socket itself. -/
theorem disconnect_equiv_stop_amended :
    (∀ (s : Server.ServerState) (sock : Server.SockId) (t : Server.TeacherId) (now : Nat),
      (Server.getSock s sock).currentTeacherId = some t →
      (Server.getSock s sock).isStudent = false →
      ((Server.disconnect s sock now).1.liveTeachers =
        (Server.stopLive s sock t now).1.liveTeachers ∧
       (Server.disconnect s sock now).1.currentLiveTeacher =
        (Server.stopLive s sock t now).1.currentLiveTeacher ∧
       (Server.disconnect s sock now).1.teacherAudioStatus =
        (Server.stopLive s sock t now).1.teacherAudioStatus ∧
       (Server.disconnect s sock now).1.audioDataMap =
        (Server.stopLive s sock t now).1.audioDataMap ∧
       (Server.disconnect s sock now).1.socks =
        aerase sock (Server.stopLive s sock t now).1.socks ∧
       (Server.disconnect s sock now).2 = (Server.stopLive s sock t now).2)) ∧
    (∀ (s : Server.ServerState) (sock : Server.SockId) (ct : Server.TeacherId) (now : Nat),
      (Server.getSock s sock).currentTeacherId = some ct →
      (Server.getSock s sock).isStudent = true →
      ((Server.disconnect s sock now).2 = [] ∧
       (Server.disconnect s sock now).1.currentLiveTeacher = s.currentLiveTeacher ∧
       (Server.disconnect s sock now).1.teacherAudioStatus = s.teacherAudioStatus ∧
       (Server.disconnect s sock now).1.audioDataMap = s.audioDataMap ∧
       alookup ct (Server.disconnect s sock now).1.liveTeachers =
         (alookup ct s.liveTeachers).map (fun ms => ms.filter (fun x => x ≠ sock)) ∧
       (∀ t2, t2 ≠ ct →
         alookup t2 (Server.disconnect s sock now).1.liveTeachers =
           alookup t2 s.liveTeachers))) ∧
    (∀ (s : Server.ServerState) (sock : Server.SockId) (now : Nat),
      (Server.getSock s sock).currentTeacherId = none →
      Server.disconnect s sock now = ({ s with socks := aerase sock s.socks }, [])) := by
  refine ⟨?_, ?_, ?_⟩
  · intro s sock t now hct hst
    rw [Server.disconnect_of_teacher s sock t now hct hst]
    have hsocks : aerase sock (Server.stopLive s sock t now).1.socks =
        aerase sock (Server.stopLiveTeardown s t now).1.socks := by
      unfold Server.stopLive
      dsimp only
      by_cases hc : (Server.getSock (Server.stopLiveTeardown s t now).1 sock
          ).currentTeacherId = some t
      · simp only [hc, if_true]
        show aerase sock (ainsert sock _ (ainsert sock _ _)) = _
        rw [Server.aerase_ainsert_self, Server.aerase_ainsert_self]
      · simp only [hc, if_false]
    refine ⟨?_, ?_, ?_, ?_, ?_, ?_⟩
    · rw [Server.stopLive_liveTeachers]
    · rw [Server.stopLive_currentLiveTeacher]
    · rw [Server.stopLive_teacherAudioStatus]
    · rw [Server.stopLive_audioDataMap]
    · exact hsocks.symm
    · rw [Server.stopLive_out]
  · intro s sock ct now hct hst
    cases hlk : alookup ct s.liveTeachers with
    | none =>
      rw [Server.disconnect_of_student_none s sock ct now hct hst hlk]
      refine ⟨rfl, rfl, rfl, rfl, ?_, ?_⟩
      · simp [hlk]
      · intro t2 hne
        rfl
    | some students =>
      rw [Server.disconnect_of_student_some s sock ct now students hct hst hlk]
      refine ⟨rfl, rfl, rfl, rfl, ?_, ?_⟩
      · show alookup ct (ainsert ct _ s.liveTeachers) = _
        rw [alookup_ainsert_self]
        rfl
      · intro t2 hne
        show alookup t2 (ainsert ct _ s.liveTeachers) = _
        rw [alookup_ainsert_ne ct t2 _ _ (fun h => hne h.symm)]
  · intro s sock now hct
    exact Server.disconnect_of_free s sock now hct

/-- Witness for C5 amended at concrete inputs: a live teacher socket
that never joined as student, a joined student socket, and a fresh
socket. -/
theorem disconnect_equiv_stop_amended_witness :
    ((Server.disconnect (Server.run Server.initialServer
        [(Server.SEvent.startLive 0 "t1", 1), (Server.SEvent.joinTeacherRoom 1 "t1", 2)])
        0 9).1.currentLiveTeacher =
      (Server.stopLive (Server.run Server.initialServer
        [(Server.SEvent.startLive 0 "t1", 1), (Server.SEvent.joinTeacherRoom 1 "t1", 2)])
        0 "t1" 9).1.currentLiveTeacher) ∧
    ((Server.disconnect (Server.run Server.initialServer
        [(Server.SEvent.startLive 0 "t1", 1), (Server.SEvent.joinTeacherRoom 1 "t1", 2)])
        1 9).2 = []) ∧
    (Server.disconnect Server.initialServer 7 9 =
      ({ Server.initialServer with socks := aerase 7 Server.initialServer.socks }, [])) := by
  refine ⟨?_, ?_, ?_⟩
  · exact (disconnect_equiv_stop_amended.1 (Server.run Server.initialServer
      [(Server.SEvent.startLive 0 "t1", 1), (Server.SEvent.joinTeacherRoom 1 "t1", 2)])
      0 "t1" 9 (by decide) (by decide)).2.1
  · exact (disconnect_equiv_stop_amended.2.1 (Server.run Server.initialServer
      [(Server.SEvent.startLive 0 "t1", 1), (Server.SEvent.joinTeacherRoom 1 "t1", 2)])
      1 "t1" 9 (by decide) (by decide)).1
  · exact disconnect_equiv_stop_amended.2.2 Server.initialServer 7 9 (by decide)

/-- C7 counterexample: the relay events are not gated on the live slot.
From the initial state (empty slot), an audioToggle for t1 stores the
AudioFlag and an audioData for t1 stores the audio payload, although t1
does not hold the slot; the claim requires both to be silently dropped
with no state change. -/
theorem relay_gating_counterexample :
    Server.initialServer.currentLiveTeacher = none ∧
    Server.initialServer.teacherAudioStatus = [] ∧
    (Server.audioToggle Server.initialServer 0 "t1" true).1.teacherAudioStatus =
      [("t1", true)] ∧
    Server.initialServer.audioDataMap = [] ∧
    (Server.audioData Server.initialServer 0 "t1" "blob").1.audioDataMap =
      [("t1", "blob")] := by
  refine ⟨rfl, rfl, ?_, rfl, ?_⟩ <;> decide

/-- C7 amended: the non-lifecycle handlers perform no live-slot check at
all.  audioToggle always stores the flag and audioData always stores the
payload, whatever the slot holds; all four events are relayed to the
teacher-named room minus the sender, and a relayed message reaches a
socket exactly when that socket is a member of the room and is not the
sender (so when the named teacher is not live and the room is empty,
nobody receives anything, but the stored flag and audio data are still
mutated). -/
theorem relay_ungated_amended :
    ∀ (s : Server.ServerState) (sock : Server.SockId) (t : Server.TeacherId) (en : Bool)
      (payload : String) (hasAudio : Bool),
      Server.audioToggle s sock t en =
        ({ s with teacherAudioStatus := ainsert t en s.teacherAudioStatus },
         [Server.Out.emitRoomExcept t sock (Server.OutEvent.audioToggle t en)]) ∧
      Server.audioData s sock t payload =
        ({ s with audioDataMap := ainsert t payload s.audioDataMap },
         [Server.Out.emitRoomExcept t sock (Server.OutEvent.audioAvailable t)]) ∧
      Server.sessionEnded s sock t hasAudio =
        (s, [Server.Out.emitRoomExcept t sock (Server.OutEvent.sessionEnded t hasAudio)]) ∧
      Server.whiteboardUpdate s sock t payload =
        (s, [Server.Out.emitRoomExcept t sock (Server.OutEvent.whiteboardUpdate t payload)]) ∧
      (∀ d, Server.deliveredTo s
          (Server.Out.emitRoomExcept t sock (Server.OutEvent.audioToggle t en)) d = true ↔
        (d ≠ sock ∧ t ∈ (Server.getSock s d).rooms)) := by
  intro s sock t en payload hasAudio
  refine ⟨rfl, rfl, rfl, rfl, ?_⟩
  intro d
  simp [Server.deliveredTo]

/-- C8: whiteboardUpdate fan-out exclusion and purity.  Processing a
whiteboardUpdate leaves the entire server state unchanged and emits a
single room broadcast carrying the payload through uninterpreted; the
broadcast is never delivered back to the sender; a socket receives it
exactly when it is in the teacher room and differs from the sender; and
whenever every recorded member of the room-table entry for t is in the
Socket.IO room (as the join handler guarantees), every member other than
the sender receives the update. -/
theorem whiteboard_fanout_pure :
    ∀ (s : Server.ServerState) (sock : Server.SockId) (t : Server.TeacherId)
      (payload : String),
      (Server.whiteboardUpdate s sock t payload).1 = s ∧
      (Server.whiteboardUpdate s sock t payload).2 =
        [Server.Out.emitRoomExcept t sock (Server.OutEvent.whiteboardUpdate t payload)] ∧
      Server.deliveredTo s
        (Server.Out.emitRoomExcept t sock (Server.OutEvent.whiteboardUpdate t payload))
        sock = false ∧
      (∀ d, Server.deliveredTo s
          (Server.Out.emitRoomExcept t sock (Server.OutEvent.whiteboardUpdate t payload))
          d = true ↔ (d ≠ sock ∧ t ∈ (Server.getSock s d).rooms)) ∧
      (∀ ms, alookup t s.liveTeachers = some ms →
        (∀ sid ∈ ms, t ∈ (Server.getSock s sid).rooms) →
        ∀ sid ∈ ms, sid ≠ sock →
          Server.deliveredTo s
            (Server.Out.emitRoomExcept t sock (Server.OutEvent.whiteboardUpdate t payload))
            sid = true) := by
  intro s sock t payload
  refine ⟨rfl, rfl, ?_, ?_, ?_⟩
  · simp [Server.deliveredTo]
  · intro d
    simp [Server.deliveredTo]
  · intro ms hlk hrooms sid hsid hne
    simp [Server.deliveredTo, hne, hrooms sid hsid]

/-- Witness for C8 at a concrete room with two students: the update from
the teacher socket reaches both students and not the sender. -/
theorem whiteboard_fanout_pure_witness :
    (Server.whiteboardUpdate (Server.run Server.initialServer
      [(Server.SEvent.startLive 0 "t1", 1), (Server.SEvent.joinTeacherRoom 1 "t1", 2),
       (Server.SEvent.joinTeacherRoom 2 "t1", 3)]) 0 "t1" "payload").1 =
      Server.run Server.initialServer
        [(Server.SEvent.startLive 0 "t1", 1), (Server.SEvent.joinTeacherRoom 1 "t1", 2),
         (Server.SEvent.joinTeacherRoom 2 "t1", 3)] ∧
    Server.deliveredTo (Server.run Server.initialServer
      [(Server.SEvent.startLive 0 "t1", 1), (Server.SEvent.joinTeacherRoom 1 "t1", 2),
       (Server.SEvent.joinTeacherRoom 2 "t1", 3)])
      (Server.Out.emitRoomExcept "t1" 0 (Server.OutEvent.whiteboardUpdate "t1" "payload"))
      1 = true ∧
    Server.deliveredTo (Server.run Server.initialServer
      [(Server.SEvent.startLive 0 "t1", 1), (Server.SEvent.joinTeacherRoom 1 "t1", 2),
       (Server.SEvent.joinTeacherRoom 2 "t1", 3)])
      (Server.Out.emitRoomExcept "t1" 0 (Server.OutEvent.whiteboardUpdate "t1" "payload"))
      0 = false := by
  have h := whiteboard_fanout_pure (Server.run Server.initialServer
    [(Server.SEvent.startLive 0 "t1", 1), (Server.SEvent.joinTeacherRoom 1 "t1", 2),
     (Server.SEvent.joinTeacherRoom 2 "t1", 3)]) 0 "t1" "payload"
  refine ⟨h.1, ?_, h.2.2.1⟩
  exact h.2.2.2.2 [1, 2] (by decide) (by decide) 1 (by decide) (by decide)

namespace ClientA

theorem crun_append (s : ClientState) (l1 l2 : List CEvent) :
    crun s (l1 ++ l2) =
      ((crun (crun s l1).1 l2).1, (crun s l1).2 ++ (crun (crun s l1).1 l2).2) := by
  induction l1 generalizing s with
  | nil => simp [crun]
  | cons e rest ih =>
    simp only [List.cons_append, crun, List.append_eq]
    rw [ih ((cstep s e).1)]
    simp [List.append_assoc]

theorem crun_whiteboard_map (s : ClientState) (ps : List String) :
    crun s (ps.map CEvent.whiteboard) =
      ({ s with lastUpdate := ps.getLastD s.lastUpdate }, []) := by
  induction ps generalizing s with
  | nil => simp [crun]
  | cons q qs ih =>
    simp only [List.map_cons, crun, cstep, handleWhiteboardUpdate, ih, List.getLastD_cons]
    simp

end ClientA

theorem countSaves_append (a b : List ClientEffect) :
    countSaves (a ++ b) = countSaves a + countSaves b := by
  simp [countSaves, List.filter_append]

/-- C2 counterexample: in the part_010 client, sessionSaved is reset by
any teacherOnline event, not only by a genuine new-occupancy transition.
Running online(t1, ts 10), whiteboardUpdate, offline(t1) saves once and
sets sessionSaved; the subsequent stale online(t1, ts 5) (older than the
last applied timestamp 10) re-arms the client (sessionSaved back to
false, session live again), so one more duplicate offline(t1) fires a
second save of the same whiteboard data for the same occupancy: the
exactly-once-per-instance guard the claim describes does not exist. -/
theorem exactly_once_save_counterexample :
    (ClientA.crun (ClientA.initialClient 0)
      [ClientA.CEvent.online "t1" (some 10) 10, ClientA.CEvent.whiteboard "data",
       ClientA.CEvent.offline "t1" true]).1.sessionSaved = true ∧
    (ClientA.crun (ClientA.initialClient 0)
      [ClientA.CEvent.online "t1" (some 10) 10, ClientA.CEvent.whiteboard "data",
       ClientA.CEvent.offline "t1" true, ClientA.CEvent.offline "t1" true,
       ClientA.CEvent.online "t1" (some 5) 20]).1.sessionSaved = false ∧
    (ClientA.crun (ClientA.initialClient 0)
      [ClientA.CEvent.online "t1" (some 10) 10, ClientA.CEvent.whiteboard "data",
       ClientA.CEvent.offline "t1" true, ClientA.CEvent.offline "t1" true,
       ClientA.CEvent.online "t1" (some 5) 20]).1.isTeacherLive = true ∧
    countSaves (ClientA.crun (ClientA.initialClient 0)
      [ClientA.CEvent.online "t1" (some 10) 10, ClientA.CEvent.whiteboard "data",
       ClientA.CEvent.offline "t1" true, ClientA.CEvent.offline "t1" true,
       ClientA.CEvent.online "t1" (some 5) 20,
       ClientA.CEvent.offline "t1" true]).2 = 2 := by
  refine ⟨?_, ?_, ?_, ?_⟩ <;> decide

/-- C2 amended: (a) a succeeded save blocks any further save while
sessionSaved holds; (b) handleTeacherOnline resets sessionSaved on every
teacherOnline event, with no guard distinguishing genuine new-occupancy
transitions from duplicates or stale events; (c) nevertheless, for the
scripted sequence online(t), several whiteboardUpdates ending in a
non-empty payload, offline(t), duplicate offline(t), stale online(t),
the save routine fires exactly once, whatever the success flags of the
persistence calls, because the duplicate offline arrives after the
teardown cleared currentTeacherId and no further offline follows the
re-arming stale online. -/
theorem exactly_once_save_amended :
    (∀ (s : ClientA.ClientState) (ok : Bool), s.sessionSaved = true →
      ClientA.saveSession s ok = (s, [])) ∧
    (∀ (s : ClientA.ClientState) (t : String) (ts : Option Nat) (now : Nat),
      (ClientA.handleTeacherOnline s t ts now).1.sessionSaved = false) ∧
    (∀ (t : String) (ts1 : Option Nat) (n1 : Nat) (ps : List String) (p : String)
      (ok1 ok2 : Bool) (ts2 : Option Nat) (n2 m : Nat),
      p ≠ "" → p ≠ "[]" →
      countSaves (ClientA.crun (ClientA.initialClient m)
        (ClientA.CEvent.online t ts1 n1 ::
          (ps.map ClientA.CEvent.whiteboard ++
            [ClientA.CEvent.whiteboard p, ClientA.CEvent.offline t ok1,
             ClientA.CEvent.offline t ok2,
             ClientA.CEvent.online t ts2 n2]))).2 = 1) := by
  refine ⟨?_, ?_, ?_⟩
  · intro s ok hsv
    cases hc : s.currentTeacherId <;> simp [ClientA.saveSession, hc, hsv]
  · intro s t ts now
    simp [ClientA.handleTeacherOnline]
  · intro t ts1 n1 ps p ok1 ok2 ts2 n2 m hp1 hp2
    simp only [ClientA.crun]
    rw [ClientA.crun_append]
    rw [ClientA.crun_whiteboard_map]
    simp only [ClientA.cstep, ClientA.handleTeacherOnline, ClientA.initialClient]
    simp [ClientA.crun, ClientA.cstep, ClientA.handleTeacherOffline,
      ClientA.saveSession, ClientA.handleWhiteboardUpdate, ClientA.handleTeacherOnline,
      ClientA.initialClient, hp1, hp2, countSaves_append, countSaves]

/-- Witness for C2 amended at concrete inputs. -/
theorem exactly_once_save_amended_witness :
    ClientA.saveSession
      { isTeacherLive := true, currentTeacherId := some "t1", lastUpdate := "data",
        isSaving := false, hasSessionAudio := false, sessionSaved := true,
        isRecording := false, lastStatusTimestamp := 0, isProcessingOffline := false }
      true =
      ({ isTeacherLive := true, currentTeacherId := some "t1", lastUpdate := "data",
         isSaving := false, hasSessionAudio := false, sessionSaved := true,
         isRecording := false, lastStatusTimestamp := 0, isProcessingOffline := false },
       []) ∧
    (ClientA.handleTeacherOnline (ClientA.initialClient 0) "t1" (some 3) 4).1.sessionSaved =
      false ∧
    countSaves (ClientA.crun (ClientA.initialClient 0)
      (ClientA.CEvent.online "t1" (some 10) 10 ::
        (["a"].map ClientA.CEvent.whiteboard ++
          [ClientA.CEvent.whiteboard "data", ClientA.CEvent.offline "t1" true,
           ClientA.CEvent.offline "t1" true,
           ClientA.CEvent.online "t1" (some 5) 20]))).2 = 1 :=
  ⟨exactly_once_save_amended.1 _ true rfl,
   exactly_once_save_amended.2.1 _ "t1" (some 3) 4,
   exactly_once_save_amended.2.2 "t1" (some 10) 10 ["a"] "data" true true (some 5) 20 0
     (by decide) (by decide)⟩

/-- C6 counterexample: the debounced offline handler of the part_010
variant does not check for activity inside the grace window; it checks
whether the last activity is more than 2000 ms old at a point 1000 ms
after the offline arrival.  With the last activity at 1500 and the
offline arriving at 2000, no activity was observed inside the grace
window (the spec-modelled rule commits to the save), yet the code treats
the teacher as still present and performs neither the save nor the
teardown. -/
theorem debounced_offline_counterexample :
    ClientB.specOfflineCommits 1500 2000 = true ∧
    ClientB.handleTeacherOffline
      { isTeacherLive := true, currentTeacherId := some "t1", lastUpdate := "data",
        isSaving := false, isSavingSession := false, lastActivity := 1500 } 2000 =
      ({ isTeacherLive := true, currentTeacherId := some "t1", lastUpdate := "data",
         isSaving := false, isSavingSession := false, lastActivity := 1500 }, []) := by
  exact ⟨by decide, by decide⟩

/-- C6 amended: on teacherOffline the client does wait 1000 ms before
deciding, but the commit test is a 2000 ms lookback from that check
point: the save and teardown happen exactly when the last recorded
activity is more than 1000 ms older than the offline arrival, so
activity shortly BEFORE the offline (not only inside the grace window)
also suppresses the save; when the test fails, nothing happens at
all. -/
theorem debounced_offline_amended :
    ∀ (s : ClientB.ClientState) (t : String) (arrive : Nat),
      s.currentTeacherId = some t → s.isSavingSession = false → s.isSaving = false →
      s.lastUpdate ≠ "" →
      ((hasSave (ClientB.handleTeacherOffline s arrive).2 = true ↔
         s.lastActivity + 1000 < arrive) ∧
       (s.lastActivity + 1000 < arrive →
         (ClientB.handleTeacherOffline s arrive).1.isTeacherLive = false ∧
         (ClientB.handleTeacherOffline s arrive).1.currentTeacherId = none ∧
         (ClientB.handleTeacherOffline s arrive).2 =
           [ClientEffect.save t s.lastUpdate false, ClientEffect.clearCanvas]) ∧
       (¬ s.lastActivity + 1000 < arrive →
         ClientB.handleTeacherOffline s arrive = (s, []))) := by
  intro s t arrive hct hss his hlu
  have harith : ClientB.actuallyOffline s.lastActivity (arrive + 1000) = true ↔
      s.lastActivity + 1000 < arrive := by
    simp only [ClientB.actuallyOffline, decide_eq_true_eq]
    omega
  by_cases hcond : s.lastActivity + 1000 < arrive
  · have hoff : ClientB.actuallyOffline s.lastActivity (arrive + 1000) = true :=
      harith.mpr hcond
    refine ⟨?_, ?_, ?_⟩
    · simp [ClientB.handleTeacherOffline, hoff, ClientB.saveSession, hss, hct, hlu, his,
        hasSave, hcond]
    · intro _
      refine ⟨?_, ?_, ?_⟩ <;>
        simp [ClientB.handleTeacherOffline, hoff, ClientB.saveSession, hss, hct, hlu, his]
    · intro hc
      exact absurd hcond hc
  · have hoff : ClientB.actuallyOffline s.lastActivity (arrive + 1000) = false := by
      rcases h2 : ClientB.actuallyOffline s.lastActivity (arrive + 1000) with _ | _
      · rfl
      · exact absurd (harith.mp h2) hcond
    refine ⟨?_, ?_, ?_⟩
    · simp [ClientB.handleTeacherOffline, hoff, hasSave, hcond]
    · intro hc
      exact absurd hc hcond
    · intro _
      simp [ClientB.handleTeacherOffline, hoff]

/-- Witness for C6 amended at a concrete state where the last activity
is old enough for the save to fire. -/
theorem debounced_offline_amended_witness :
    (hasSave (ClientB.handleTeacherOffline
      { isTeacherLive := true, currentTeacherId := some "t1", lastUpdate := "data",
        isSaving := false, isSavingSession := false, lastActivity := 500 } 2000).2 = true ↔
      500 + 1000 < 2000) ∧
    hasSave (ClientB.handleTeacherOffline
      { isTeacherLive := true, currentTeacherId := some "t1", lastUpdate := "data",
        isSaving := false, isSavingSession := false, lastActivity := 500 } 2000).2 = true :=
  have h := debounced_offline_amended
    { isTeacherLive := true, currentTeacherId := some "t1", lastUpdate := "data",
      isSaving := false, isSavingSession := false, lastActivity := 500 } "t1" 2000
    rfl rfl rfl (by decide)
  ⟨h.1, h.1.mpr (by decide)⟩

/-- C9: the part_010 client records lastStatusTimestamp (declared for
event ordering and duplicate suppression) but never compares an incoming
event timestamp against it, so a teacherOnline carrying timestamp 50 is
applied even though the last applied timestamp is 100: the client goes
live again, resets sessionSaved, and even moves lastStatusTimestamp
backwards to 50 — instead of discarding the stale event with no state
change as the claim requires. -/
theorem stale_event_applied :
    (ClientA.crun (ClientA.initialClient 0)
      [ClientA.CEvent.online "t1" (some 100) 100, ClientA.CEvent.whiteboard "data",
       ClientA.CEvent.offline "t1" true]).1.lastStatusTimestamp = 100 ∧
    (ClientA.handleTeacherOnline (ClientA.crun (ClientA.initialClient 0)
      [ClientA.CEvent.online "t1" (some 100) 100, ClientA.CEvent.whiteboard "data",
       ClientA.CEvent.offline "t1" true]).1 "t1" (some 50) 120).1.lastStatusTimestamp = 50 ∧
    (ClientA.handleTeacherOnline (ClientA.crun (ClientA.initialClient 0)
      [ClientA.CEvent.online "t1" (some 100) 100, ClientA.CEvent.whiteboard "data",
       ClientA.CEvent.offline "t1" true]).1 "t1" (some 50) 120).1.isTeacherLive = true ∧
    (ClientA.handleTeacherOnline (ClientA.crun (ClientA.initialClient 0)
      [ClientA.CEvent.online "t1" (some 100) 100, ClientA.CEvent.whiteboard "data",
       ClientA.CEvent.offline "t1" true]).1 "t1" (some 50) 120).1.sessionSaved = false := by
  refine ⟨?_, ?_, ?_, ?_⟩ <;> decide

/-- C10: an empty session is never persisted.  In both cited
StudentWhiteboard variants, when the last received whiteboard payload is
the empty path list, saveSession returns with no state change and no
upload or POST, and the teacherOffline handling path produces no save
effect. -/
theorem empty_session_never_persisted :
    (∀ (s : ClientA.ClientState) (t : String) (ok : Bool),
      s.lastUpdate = "[]" →
      ClientA.saveSession s ok = (s, []) ∧
      hasSave (ClientA.handleTeacherOffline s t ok).2 = false) ∧
    (∀ (s : ClientC.ClientState) (ok : Bool),
      s.lastUpdate = "[]" →
      ClientC.saveSession s ok = (s, []) ∧
      hasSave (ClientC.handleTeacherOffline s ok).2 = false) := by
  constructor
  · intro s t ok hlu
    have hsv : ClientA.saveSession s ok = (s, []) := by
      cases hc : s.currentTeacherId with
      | none => simp [ClientA.saveSession, hc]
      | some t2 =>
        by_cases hg : s.lastUpdate = "" ∨ s.isSaving ∨ s.sessionSaved <;>
          simp [ClientA.saveSession, hc, hg, hlu]
    refine ⟨hsv, ?_⟩
    by_cases h1 : s.isProcessingOffline
    · simp [ClientA.handleTeacherOffline, h1, hasSave]
    · by_cases h2 : s.currentTeacherId = some t
      · simp [ClientA.handleTeacherOffline, h1, h2, hlu, hasSave]
      · simp [ClientA.handleTeacherOffline, h1, h2, hasSave]
  · intro s ok hlu
    have hsv : ClientC.saveSession s ok = (s, []) := by
      cases hc : s.currentTeacherId with
      | none => simp [ClientC.saveSession, hc]
      | some t2 => simp [ClientC.saveSession, hc, hlu]
    constructor
    · exact hsv
    · simp [ClientC.handleTeacherOffline, hsv, hasSave]

/-- Witness for C10 at concrete empty-canvas states of both variants. -/
theorem empty_session_never_persisted_witness :
    ClientA.saveSession (ClientA.initialClient 0) true = (ClientA.initialClient 0, []) ∧
    hasSave (ClientA.handleTeacherOffline
      { ClientA.initialClient 0 with
          isTeacherLive := true, currentTeacherId := some "t1" } "t1" true).2 = false ∧
    ClientC.saveSession
      { ClientC.initialClient with currentTeacherId := some "t1" } true =
      ({ ClientC.initialClient with currentTeacherId := some "t1" }, []) ∧
    hasSave (ClientC.handleTeacherOffline
      { ClientC.initialClient with currentTeacherId := some "t1" } true).2 = false :=
  ⟨(empty_session_never_persisted.1 (ClientA.initialClient 0) "t1" true rfl).1,
   (empty_session_never_persisted.1
     { ClientA.initialClient 0 with
         isTeacherLive := true, currentTeacherId := some "t1" } "t1" true rfl).2,
   (empty_session_never_persisted.2
     { ClientC.initialClient with currentTeacherId := some "t1" } true rfl).1,
   (empty_session_never_persisted.2
     { ClientC.initialClient with currentTeacherId := some "t1" } true rfl).2⟩

end Digiboard
